import Mathlib

/-!
# ai_roadmap_fe: the request client and the playground controller

A shallow embedding of `src/helpers/api.js` (`generateText`, `streamGenerateText`)
and of the state handling of `src/pages/LlmPlayground.jsx` (`runGeneration` and the
state setters the page wires to its inputs), followed by the properties proved about
them.

Conventions of the embedding.

* An `async` function is modelled by what it does to the outside (the `fetch` calls it
  issues, the callbacks it invokes) and by how its promise settles
  (`Except JsError _`: `.error` is a rejection).
* The network is an input: each `fetch` call is given the way it settles
  (`Except JsError Response`), chosen freely for every call.
* JavaScript numbers are never computed with in this code, they are stored and
  forwarded; they are carried as rationals.
-/

namespace AiRoadmap

/-! ## JavaScript values -/

/-- The values `JSON.parse` produces. An object is the list of its own properties. -/
inductive Json where
  | null
  | bool (b : Bool)
  | number (n : Rat)
  | string (s : String)
  | array (items : List Json)
  | object (props : List (String × Json))

/-- The JavaScript values that reach the modelled code: `undefined`, and parsed JSON
(string literals of the code are JSON strings). -/
inductive JsValue where
  | undefined
  | ofJson (j : Json)

/-- Errors a promise can reject with. -/
inductive JsError where
  /-- The value of `new Error(message)`. -/
  | error (message : String)
  /-- A `TypeError` raised by the engine when a property of `null` or `undefined`
  is read (its message is engine specific). -/
  | typeError
  /-- An error raised by the host: a `fetch` that cannot reach the server,
  `res.json()` on a body that is not JSON, a failing stream read. -/
  | host (name : String) (message : String)
  deriving DecidableEq

/-- The effects and the outcome of one call of an `async` function: the `fetch` calls
it issued, in order, and how its promise settled. -/
structure Run (ρ : Type) (α : Type) where
  calls : List ρ
  result : Except JsError α

/-- The property read `json.output` on a parsed body: on `null` it throws a
`TypeError`; an object yields its own property `output`, or `undefined` when it has
none; any other value (boolean, number, string, array) has no property `output` and
yields `undefined`. -/
def Json.output (json : Json) : Except JsError JsValue :=
  match json with
  | .null => .error .typeError
  | .object props =>
    match props.lookup "output" with
    | some v => .ok (.ofJson v)
    | none => .ok .undefined
  | _ => .ok .undefined

/-- The abstract operation `ToBoolean` on a string: the empty string is falsy, every other string truthy. -/
def toBoolean (s : String) : Bool := s.length != 0

/-- The code points `String.prototype.trim` strips: ECMAScript `WhiteSpace`
(TAB, VT, FF, SP, NBSP, ZWNBSP and the Unicode space separators) and
`LineTerminator` (LF, CR, LS, PS). -/
def isWhiteSpace (c : Char) : Bool :=
  let n := c.toNat
  n == 0x09 || n == 0x0A || n == 0x0B || n == 0x0C || n == 0x0D || n == 0x20 ||
  n == 0xA0 || n == 0x1680 || (0x2000 ≤ n && n ≤ 0x200A) || n == 0x2028 ||
  n == 0x2029 || n == 0x202F || n == 0x205F || n == 0x3000 || n == 0xFEFF

/-- The method `String.prototype.trim`: strips white space from both ends. Every
stripped code point is a single UTF-16 code unit, so trimming by code point and by
code unit agree. -/
def trim (s : String) : String :=
  ⟨((s.data.dropWhile isWhiteSpace).reverse.dropWhile isWhiteSpace).reverse⟩

/-! ## Data model -/

/-- One lane's sampling parameters (`DEFAULT_PARAMS_A`, `DEFAULT_PARAMS_B`). -/
structure ParamSet where
  temperature : Rat
  top_p : Rat
  max_tokens : Rat
  deriving DecidableEq

/-- The constant `DEFAULT_PARAMS_A` (0.5, 0.9, 200). -/
def DEFAULT_PARAMS_A : ParamSet := { temperature := 1 / 2, top_p := 9 / 10, max_tokens := 200 }

/-- The constant `DEFAULT_PARAMS_B` (0.8, 0.95, 200). -/
def DEFAULT_PARAMS_B : ParamSet := { temperature := 4 / 5, top_p := 19 / 20, max_tokens := 200 }

/-- The object `{ prompt: userPrompt, model, ...params }` handed to `generateText`. -/
structure GenerationRequest where
  prompt : String
  model : String
  temperature : Rat
  top_p : Rat
  max_tokens : Rat
  deriving DecidableEq

/-- The two arguments of a `fetch` call; `body` is the value given to
`JSON.stringify`. -/
structure HttpRequest where
  url : String
  method : String
  headers : List (String × String)
  body : GenerationRequest
  deriving DecidableEq

/-- What `reader.read()` resolves to: `{ value, done }`. `value` is a frame of bytes
(a `Uint8Array`), or `undefined`. -/
structure ReadResult where
  value : Option (List Nat)
  done : Bool
  deriving DecidableEq

/-- A `fetch` response as the code observes it: `status`, how `res.json()` settles,
and how the successive `reader.read()` calls on `res.body` settle (`none`: `res.body`
is `null`; a list that ends without a `done` read: the next read never settles). -/
structure Response where
  status : Nat
  json : Except JsError Json
  body : Option (List (Except JsError ReadResult))

/-- The getter `res.ok`: the status is in the range 200 to 299. -/
def Response.ok (res : Response) : Bool := 200 ≤ res.status && res.status ≤ 299

/-! ## `helpers/api.js` -/

/-- The function `generateText(data)`, with `net` the way its `fetch` call settles. -/
def generateText (data : GenerationRequest) (net : Except JsError Response) :
    Run HttpRequest JsValue :=
  { calls := [{ url := "http://localhost:8000/generate-local",
                method := "POST",
                headers := [("Content-Type", "application/json")],
                body := data }],
    result :=
      match net with
      | .error e => .error e
      | .ok res =>
        if !res.ok then
          .error (.error ("API error " ++ toString res.status))
        else
          match res.json with
          | .error e => .error e
          | .ok json => json.output }

/-- The effects and the outcome of one call of `streamGenerateText`: the `fetch`
calls issued, the arguments `onChunk` was invoked with, in order of invocation, and
how the promise settled (`none`: it never settles). -/
structure StreamRun where
  calls : List HttpRequest
  chunks : List String
  outcome : Option (Except JsError Unit)

/-- The `while (!done)` loop of `streamGenerateText` over the successive reads;
`decode` is `decoder.decode` of a fresh `TextDecoder`. Returns the arguments given to
`onChunk` and how the loop ends. -/
def readLoop (decode : List Nat → String) :
    List (Except JsError ReadResult) → List String × Option (Except JsError Unit)
  | [] => ([], none)
  | .error e :: _ => ([], some (.error e))
  | .ok r :: rest =>
    let emitted := match r.value with
      | some value => [decode value]
      | none => []
    if r.done then (emitted, some (.ok ()))
    else
      let later := readLoop decode rest
      (emitted ++ later.1, later.2)

/-- The function `streamGenerateText(data, onChunk)`, with `net` the way its `fetch` call
settles. -/
def streamGenerateText (decode : List Nat → String) (data : GenerationRequest)
    (net : Except JsError Response) : StreamRun :=
  let call : HttpRequest :=
    { url := "http://localhost:8000/generate-local/stream",
      method := "POST",
      headers := [("Content-Type", "application/json")],
      body := data }
  match net with
  | .error e => { calls := [call], chunks := [], outcome := some (.error e) }
  | .ok res =>
    match res.body with
    | none => { calls := [call], chunks := [], outcome := some (.error .typeError) }
    | some reads =>
      let loop := readLoop decode reads
      { calls := [call], chunks := loop.1, outcome := loop.2 }

/-- The reads a transport delivers for a finite sequence of frames followed by
end-of-stream: one `{ value: frame, done: false }` per frame, then
`{ value: undefined, done: true }`. -/
def framesThenEnd (frames : List (List Nat)) : List (Except JsError ReadResult) :=
  frames.map (fun frame => .ok { value := some frame, done := false }) ++
    [.ok { value := none, done := true }]

/-! ## `pages/LlmPlayground.jsx` -/

/-- The `outputs` of a turn. -/
structure Outputs where
  A : JsValue
  B : JsValue

/-- One entry of `history`. -/
structure Turn where
  prompt : String
  outputs : Outputs

/-- The `useState` cells of `LLMPlayground`. -/
structure State where
  prompt : String
  model : String
  loading : Bool
  history : List Turn
  showSettings : Bool
  showRunB : Bool
  paramsA : ParamSet
  paramsB : ParamSet

/-- The initial values of the `useState` cells. -/
def initialState : State :=
  { prompt := "", model := "tinyllama", loading := false, history := [],
    showSettings := false, showRunB := false,
    paramsA := DEFAULT_PARAMS_A, paramsB := DEFAULT_PARAMS_B }

/-- The text shown for a failed turn. -/
def errorMessage : String := "⚠️ Error generating response."

/-- The updater given to `setHistory` when the requests have settled: a copy of `prev`
whose last element has its `outputs` replaced (`{ ...last, outputs }`). On an empty
`prev` the assignment goes to index `-1`, which adds no element. -/
def setLastOutputs (outputs : Outputs) (prev : List Turn) : List Turn :=
  let next := prev
  match next.getLast? with
  | none => next
  | some last => next.set (next.length - 1) { last with outputs := outputs }

/-- The `Promise.all` of the two lane promises: rejects when one of them rejects,
otherwise resolves to the pair of their values. (When both reject, the one that
rejects first in time wins; the error is only logged, so lane A is taken.) -/
def promiseAll (a b : Except JsError JsValue) : Except JsError (JsValue × JsValue) :=
  match a, b with
  | .error e, _ => .error e
  | .ok _, .error e => .error e
  | .ok resA, .ok resB => .ok (resA, resB)

/-- Lines 49 to 55 of `runGeneration`: the guard, and the three state updates made
before the requests are issued. `none`: the guard returned. -/
def runGenerationBegin (s : State) : Option State :=
  if !(toBoolean (trim s.prompt)) || s.loading then none
  else
    let userPrompt := s.prompt
    some { s with
      prompt := "",
      loading := true,
      history := s.history ++ [{ prompt := userPrompt, outputs := { A := .ofJson (.string ""), B := .ofJson (.string "") } }] }

/-- The object literal `{ prompt: userPrompt, model, ...params }` of lines 59 and 61. -/
def laneData (userPrompt model : String) (params : ParamSet) : GenerationRequest :=
  { prompt := userPrompt, model := model, temperature := params.temperature,
    top_p := params.top_p, max_tokens := params.max_tokens }

/-- Lines 58 to 63 of `runGeneration`: the argument of `Promise.all`, evaluated with
the values the callback closed over (`s` is the state of the render that created the
callback). `netA` and `netB` are the ways the two `fetch` calls settle; `netB` is not
consulted when lane B issues no call. -/
def runGenerationLanes (s : State) (netA netB : Except JsError Response) :
    Run HttpRequest (JsValue × JsValue) :=
  let userPrompt := s.prompt
  let a := generateText (laneData userPrompt s.model s.paramsA) netA
  let b : Run HttpRequest JsValue :=
    if s.showRunB then generateText (laneData userPrompt s.model s.paramsB) netB
    else { calls := [], result := .ok (.ofJson (.string "")) }
  { calls := a.calls ++ b.calls, result := promiseAll a.result b.result }

/-- Lines 65 to 84 of `runGeneration`: what runs once `Promise.all` has settled, on
the state of that moment. -/
def runGenerationSettle (settled : Except JsError (JsValue × JsValue)) (s : State) : State :=
  let s :=
    match settled with
    | .ok (resA, resB) =>
      { s with history := setLastOutputs { A := resA, B := resB } s.history }
    | .error _ =>
      { s with history := setLastOutputs { A := .ofJson (.string errorMessage), B := .ofJson (.string "") } s.history }
  { s with loading := false }

/-- The lanes of the settings panel. -/
inductive Lane where
  | A
  | B
  deriving DecidableEq

/-- What the user can do on the page. -/
inductive UiEvent where
  /-- Typing in `PromptInput`: `onChange(e.target.value)`. -/
  | setPrompt (value : String)
  /-- Enter in `PromptInput`, or a click on its button: `onSubmit()`. -/
  | submit
  /-- The "control panel" link and the modal: `setShowSettings(..)`. -/
  | setShowSettings (value : Bool)
  /-- The button of `CompareToggle`: `setShowRunB((v) => !v)`. -/
  | toggleRunB
  /-- The "Temp" slider of `ControlColumn`: `setParams({ ...params, temperature: v })`. -/
  | setTemperature (lane : Lane) (v : Rat)
  /-- The "Top-p" slider of `ControlColumn`: `setParams({ ...params, top_p: v })`. -/
  | setTopP (lane : Lane) (v : Rat)
  /-- The model selector of `Footer`: `setModel(e.target.value)`. -/
  | setModel (value : String)

/-- The effect of an event on the state. For `submit` this is the effect of
`runGeneration` up to its `await`; the continuation of a call accepted here is not
followed, and while `loading` is set none is accepted (`applyUi_awaiting`). -/
def applyUi (s : State) : UiEvent → State
  | .setPrompt value => { s with prompt := value }
  | .submit => (runGenerationBegin s).getD s
  | .setShowSettings value => { s with showSettings := value }
  | .toggleRunB => { s with showRunB := !s.showRunB }
  | .setTemperature .A v => { s with paramsA := { s.paramsA with temperature := v } }
  | .setTemperature .B v => { s with paramsB := { s.paramsB with temperature := v } }
  | .setTopP .A v => { s with paramsA := { s.paramsA with top_p := v } }
  | .setTopP .B v => { s with paramsB := { s.paramsB with top_p := v } }
  | .setModel value => { s with model := value }

/-- One call of `runGeneration` on state `s`, from the guard to the `finally` block.
`netA` and `netB` are the ways the lane requests settle and `during` the events that
reach the page while the call awaits them. Returns the state after the call and the
`fetch` calls it issued. -/
def runGeneration (s : State) (netA netB : Except JsError Response)
    (during : List UiEvent) : State × List HttpRequest :=
  match runGenerationBegin s with
  | none => (s, [])
  | some started =>
    let lanes := runGenerationLanes s netA netB
    let awaiting := during.foldl applyUi started
    (runGenerationSettle lanes.result awaiting, lanes.calls)

/-! ## Predicates and sample inputs used in the statements -/

/-- A lane request fails: the `fetch` call is rejected, or its response has a status
that is not a success status. -/
def requestFails : Except JsError Response → Bool
  | .error _ => true
  | .ok res => !res.ok

/-- The parsed body is an object carrying the field `output`. -/
def Json.carriesOutput : Json → Bool
  | .object props => (props.lookup "output").isSome
  | _ => false

/-- A response with the given status whose body is the given JSON value. -/
def jsonResponse (status : Nat) (json : Json) : Response :=
  { status := status, json := .ok json, body := none }

/-- A response with status 200 whose body is `{"output": text}`. -/
def outputResponse (text : String) : Response :=
  jsonResponse 200 (.object [("output", .string text)])

/-- The initial page with `value` typed in the prompt field. -/
def typed (value : String) : State := applyUi initialState (.setPrompt value)

/-- The initial page with lane B enabled and `value` typed in the prompt field. -/
def typedWithRunB (value : String) : State :=
  applyUi (applyUi initialState .toggleRunB) (.setPrompt value)

/-- A page on which a submission of "hello" is in flight and "again" has been typed
since. -/
def awaitingState : State :=
  applyUi (applyUi (typed "hello") .submit) (.setPrompt "again")

/-! ## Auxiliary lemmas -/

theorem toBoolean_eq_true_iff (t : String) : toBoolean t = true ↔ t ≠ "" := by
  unfold toBoolean
  rw [bne_iff_ne, ne_eq, ne_eq, String.length, List.length_eq_zero, String.ext_iff]

theorem runGenerationBegin_of_loading (s : State) (h : s.loading = true) :
    runGenerationBegin s = none := by
  simp [runGenerationBegin, h]

theorem runGenerationBegin_of_blank (s : State) (h : trim s.prompt = "") :
    runGenerationBegin s = none := by
  have : toBoolean (trim s.prompt) = false := by
    rw [← Bool.not_eq_true, toBoolean_eq_true_iff]
    simpa using h
  simp [runGenerationBegin, this]

theorem runGenerationBegin_of_idle (s : State) (hidle : s.loading = false)
    (hprompt : trim s.prompt ≠ "") :
    runGenerationBegin s = some { s with
      prompt := "",
      loading := true,
      history := s.history ++
        [{ prompt := s.prompt, outputs := { A := .ofJson (.string ""), B := .ofJson (.string "") } }] } := by
  have : toBoolean (trim s.prompt) = true := (toBoolean_eq_true_iff _).2 hprompt
  simp [runGenerationBegin, this, hidle]

theorem setLastOutputs_append (outputs : Outputs) (prev : List Turn) (last : Turn) :
    setLastOutputs outputs (prev ++ [last]) = prev ++ [{ last with outputs := outputs }] := by
  simp [setLastOutputs]

/-- While a call awaits its requests (`loading` is set), no event changes `loading`
or `history`: the setters of the settings panel and of the prompt do not touch them,
and a submit attempt stops at the guard. -/
theorem applyUi_awaiting (s : State) (e : UiEvent) (h : s.loading = true) :
    (applyUi s e).loading = true ∧ (applyUi s e).history = s.history := by
  cases e with
  | submit => simp [applyUi, runGenerationBegin_of_loading s h, h]
  | setTemperature lane v => cases lane <;> simp [applyUi, h]
  | setTopP lane v => cases lane <;> simp [applyUi, h]
  | _ => simp [applyUi, h]

theorem foldl_applyUi_awaiting (during : List UiEvent) (s : State) (h : s.loading = true) :
    (during.foldl applyUi s).loading = true ∧ (during.foldl applyUi s).history = s.history := by
  induction during generalizing s with
  | nil => exact ⟨h, rfl⟩
  | cons e rest ih =>
    have step := applyUi_awaiting s e h
    have tail := ih (applyUi s e) step.1
    exact ⟨tail.1, tail.2.trans step.2⟩

/-! ## The request client -/

/-- C6: on a response whose status is not a success status, `generateText` rejects
with `Error("API error <status>")`, which carries the status code of the response, and
resolves to no value, whatever the body of the response and whatever the request. -/
theorem generateText_rejects_on_failure_status (data : GenerationRequest) (res : Response)
    (h : res.ok = false) :
    (generateText data (.ok res)).result
        = .error (.error ("API error " ++ toString res.status)) ∧
      ∀ v, (generateText data (.ok res)).result ≠ .ok v := by
  have hres : (generateText data (.ok res)).result
      = .error (.error ("API error " ++ toString res.status)) := by
    simp [generateText, h]
  refine ⟨hres, ?_⟩
  intro v hv
  rw [hres] at hv
  cases hv

theorem generateText_rejects_on_failure_status_witness :
    (jsonResponse 500 (.object [("output", .string "ignored")])).ok = false ∧
      ((generateText (laneData "hello" "tinyllama" DEFAULT_PARAMS_A)
          (.ok (jsonResponse 500 (.object [("output", .string "ignored")])))).result
          = .error (.error ("API error " ++
              toString (jsonResponse 500 (.object [("output", .string "ignored")])).status)) ∧
        ∀ v, (generateText (laneData "hello" "tinyllama" DEFAULT_PARAMS_A)
          (.ok (jsonResponse 500 (.object [("output", .string "ignored")])))).result ≠ .ok v) :=
  ⟨by decide, generateText_rejects_on_failure_status _ _ (by decide)⟩

/-- C7: on a response with a success status whose body is a JSON object carrying an
`output` field, `generateText` resolves to exactly the value of that field, whatever
the request, the status among the success statuses and the other fields of the body. -/
theorem generateText_returns_output_field (data : GenerationRequest) (res : Response)
    (props : List (String × Json)) (v : Json)
    (hok : res.ok = true) (hbody : res.json = .ok (.object props))
    (hout : props.lookup "output" = some v) :
    (generateText data (.ok res)).result = .ok (.ofJson v) := by
  simp [generateText, hok, hbody, Json.output, hout]

theorem generateText_returns_output_field_witness :
    (jsonResponse 200 (.object [("model", .string "tinyllama"), ("output", .string "hi there")])).ok
        = true ∧
      (jsonResponse 200 (.object [("model", .string "tinyllama"), ("output", .string "hi there")])).json
        = .ok (.object [("model", .string "tinyllama"), ("output", .string "hi there")]) ∧
      [("model", Json.string "tinyllama"), ("output", Json.string "hi there")].lookup "output"
        = some (.string "hi there") ∧
      (generateText (laneData "hello" "tinyllama" DEFAULT_PARAMS_A)
        (.ok (jsonResponse 200
          (.object [("model", .string "tinyllama"), ("output", .string "hi there")])))).result
        = .ok (.ofJson (.string "hi there")) :=
  ⟨by decide, rfl, by simp [List.lookup],
    generateText_returns_output_field _ _ _ _ (by decide) rfl (by simp [List.lookup])⟩

theorem readLoop_framesThenEnd (decode : List Nat → String) (frames : List (List Nat)) :
    readLoop decode (framesThenEnd frames) = (frames.map decode, some (.ok ())) := by
  induction frames with
  | nil => simp [framesThenEnd, readLoop]
  | cons frame rest ih =>
    have unfolded : framesThenEnd (frame :: rest)
        = .ok { value := some frame, done := false } :: framesThenEnd rest := by
      simp [framesThenEnd]
    rw [unfolded, readLoop, ih]
    simp

/-- C8: when the response body delivers a finite sequence of frames and then signals
end-of-stream, `streamGenerateText` invokes `onChunk` once per frame, in arrival
order, with the frame decoded as text (the arguments of the callback are the frames
mapped through the decoder), issues one request to the streaming endpoint, and its
promise resolves at end-of-stream. -/
theorem streamGenerateText_chunks (decode : List Nat → String) (data : GenerationRequest)
    (status : Nat) (json : Except JsError Json) (frames : List (List Nat)) :
    (streamGenerateText decode data
        (.ok { status := status, json := json, body := some (framesThenEnd frames) })).chunks
        = frames.map decode ∧
      (streamGenerateText decode data
        (.ok { status := status, json := json, body := some (framesThenEnd frames) })).outcome
        = some (.ok ()) ∧
      (streamGenerateText decode data
        (.ok { status := status, json := json, body := some (framesThenEnd frames) })).calls
        = [{ url := "http://localhost:8000/generate-local/stream", method := "POST",
             headers := [("Content-Type", "application/json")], body := data }] := by
  simp [streamGenerateText, readLoop_framesThenEnd]

/-! ## The playground controller -/

theorem generateText_of_requestFails (data : GenerationRequest)
    (net : Except JsError Response) (h : requestFails net = true) :
    ∃ e, (generateText data net).result = .error e := by
  cases net with
  | error e => exact ⟨e, rfl⟩
  | ok res =>
    have hok : res.ok = false := by simpa [requestFails] using h
    exact ⟨.error ("API error " ++ toString res.status), by simp [generateText, hok]⟩

/-- An accepted call ends with the history of before, followed by the one turn of the
call, whose outputs are the settled values or the error display. -/
theorem runGeneration_history (s : State) (netA netB : Except JsError Response)
    (during : List UiEvent) (hidle : s.loading = false) (hprompt : trim s.prompt ≠ "") :
    (runGeneration s netA netB during).1.history = s.history ++
      [{ prompt := s.prompt,
         outputs :=
           match (runGenerationLanes s netA netB).result with
           | .ok (resA, resB) => { A := resA, B := resB }
           | .error _ => { A := .ofJson (.string errorMessage), B := .ofJson (.string "") } }] := by
  have hbegin := runGenerationBegin_of_idle s hidle hprompt
  have hawait := foldl_applyUi_awaiting during _ (show ({ s with
      prompt := "", loading := true,
      history := s.history ++
        [{ prompt := s.prompt,
           outputs := { A := .ofJson (.string ""), B := .ofJson (.string "") } }] } : State).loading
        = true from rfl)
  simp only [runGeneration, hbegin]
  cases hres : (runGenerationLanes s netA netB).result with
  | error e => simp [runGenerationSettle, hawait.2, setLastOutputs_append]
  | ok pair =>
    obtain ⟨resA, resB⟩ := pair
    simp [runGenerationSettle, hawait.2, setLastOutputs_append]

/-- An accepted call ends in the state the page had while the call was awaiting its
requests, with the in-flight flag cleared and the turn of the call settled. -/
theorem runGeneration_state (s : State) (netA netB : Except JsError Response)
    (during : List UiEvent) (hidle : s.loading = false) (hprompt : trim s.prompt ≠ "") :
    (runGeneration s netA netB during).1 =
      { during.foldl applyUi { s with
          prompt := "", loading := true,
          history := s.history ++
            [{ prompt := s.prompt,
               outputs := { A := .ofJson (.string ""), B := .ofJson (.string "") } }] } with
        loading := false,
        history := s.history ++
          [{ prompt := s.prompt,
             outputs :=
               match (runGenerationLanes s netA netB).result with
               | .ok (resA, resB) => { A := resA, B := resB }
               | .error _ =>
                 { A := .ofJson (.string errorMessage), B := .ofJson (.string "") } }] } := by
  have hbegin := runGenerationBegin_of_idle s hidle hprompt
  have hawait := foldl_applyUi_awaiting during _ (show ({ s with
      prompt := "", loading := true,
      history := s.history ++
        [{ prompt := s.prompt,
           outputs := { A := .ofJson (.string ""), B := .ofJson (.string "") } }] } : State).loading
        = true from rfl)
  simp only [runGeneration, hbegin]
  cases hres : (runGenerationLanes s netA netB).result with
  | error e => simp [runGenerationSettle, hawait.2, setLastOutputs_append]
  | ok pair =>
    obtain ⟨resA, resB⟩ := pair
    simp [runGenerationSettle, hawait.2, setLastOutputs_append]

/-- A call on an idle page with a non-blank prompt is accepted: it passes the guard,
issues at least one request, appends one turn and ends with the flag cleared. -/
theorem runGeneration_accepted (s : State) (netA netB : Except JsError Response)
    (during : List UiEvent) (hidle : s.loading = false) (hprompt : trim s.prompt ≠ "") :
    (runGenerationBegin s).isSome = true ∧
      (runGeneration s netA netB during).2 ≠ [] ∧
      (runGeneration s netA netB during).1.loading = false ∧
      (runGeneration s netA netB during).1.history.length = s.history.length + 1 := by
  have hbegin := runGenerationBegin_of_idle s hidle hprompt
  have hstate := runGeneration_state s netA netB during hidle hprompt
  have hhist := runGeneration_history s netA netB during hidle hprompt
  refine ⟨by rw [hbegin]; rfl, ?_, by rw [hstate], by rw [hhist]; simp⟩
  simp only [runGeneration, hbegin]
  simp [runGenerationLanes, generateText]

/-- C3: when a submission is in flight, or the prompt is empty after trimming,
invoking submit is a no-op: the whole state (history, prompt, in-flight flag, both
ParamSets and the rest) is unchanged and no request is issued. -/
theorem runGeneration_guard_noop (s : State) (netA netB : Except JsError Response)
    (during : List UiEvent) (h : s.loading = true ∨ trim s.prompt = "") :
    runGeneration s netA netB during = (s, []) ∧ applyUi s .submit = s := by
  have hbegin : runGenerationBegin s = none := by
    cases h with
    | inl hl => exact runGenerationBegin_of_loading s hl
    | inr hb => exact runGenerationBegin_of_blank s hb
  simp [runGeneration, applyUi, hbegin]

theorem runGeneration_guard_noop_witness :
    ((awaitingState.loading = true ∨ trim awaitingState.prompt = "") ∧
      (runGeneration awaitingState (.ok (outputResponse "pong")) (.ok (outputResponse "pong")) []
          = (awaitingState, []) ∧
        applyUi awaitingState .submit = awaitingState)) ∧
    (((typed " \t\n").loading = true ∨ trim (typed " \t\n").prompt = "") ∧
      (runGeneration (typed " \t\n") (.ok (outputResponse "pong")) (.ok (outputResponse "pong")) []
          = (typed " \t\n", []) ∧
        applyUi (typed " \t\n") .submit = typed " \t\n")) :=
  ⟨⟨Or.inl rfl, runGeneration_guard_noop _ _ _ _ (Or.inl rfl)⟩,
    ⟨Or.inr (by decide), runGeneration_guard_noop _ _ _ _ (Or.inr (by decide))⟩⟩

/-- C4: for a prompt that is non-empty after trimming, submitting from the idle state
gives, before any response is looked at, a state with the prompt cleared, the
in-flight flag set and the history of before followed by exactly one new turn, with
the submitted prompt and both outputs the empty string; the history is one longer. -/
theorem runGenerationBegin_appends_turn (s : State) (hidle : s.loading = false)
    (hprompt : trim s.prompt ≠ "") :
    ∃ started, runGenerationBegin s = some started ∧
      started.prompt = "" ∧ started.loading = true ∧
      started.history = s.history ++
        [{ prompt := s.prompt,
           outputs := { A := .ofJson (.string ""), B := .ofJson (.string "") } }] ∧
      started.history.length = s.history.length + 1 :=
  ⟨_, runGenerationBegin_of_idle s hidle hprompt, rfl, rfl, rfl, by simp⟩

theorem runGenerationBegin_appends_turn_witness :
    (typed "hello").loading = false ∧ trim (typed "hello").prompt ≠ "" ∧
      ∃ started, runGenerationBegin (typed "hello") = some started ∧
        started.prompt = "" ∧ started.loading = true ∧
        started.history = (typed "hello").history ++
          [{ prompt := (typed "hello").prompt,
             outputs := { A := .ofJson (.string ""), B := .ofJson (.string "") } }] ∧
        started.history.length = (typed "hello").history.length + 1 :=
  ⟨rfl, by decide, runGenerationBegin_appends_turn _ rfl (by decide)⟩

/-- C1: a submission accepted from the idle state whose lane requests resolve to
`resA` and `resB` ends with the history of before followed by exactly one turn
`{prompt: the prompt as typed, outputs: {A: resA, B: resB}}`, where B is the empty
string when lane B is disabled; whatever happens on the page in between. -/
theorem runGeneration_success_turn (s : State) (netA netB : Except JsError Response)
    (during : List UiEvent) (resA resB : JsValue)
    (hidle : s.loading = false) (hprompt : trim s.prompt ≠ "")
    (hA : (generateText (laneData s.prompt s.model s.paramsA) netA).result = .ok resA)
    (hB : s.showRunB = true →
      (generateText (laneData s.prompt s.model s.paramsB) netB).result = .ok resB) :
    (runGeneration s netA netB during).1.history = s.history ++
      [{ prompt := s.prompt,
         outputs := { A := resA, B := if s.showRunB then resB else .ofJson (.string "") } }] := by
  rw [runGeneration_history s netA netB during hidle hprompt]
  cases hshow : s.showRunB with
  | false => simp [runGenerationLanes, hshow, hA, promiseAll]
  | true => simp [runGenerationLanes, hshow, hA, hB hshow, promiseAll]

theorem runGeneration_success_turn_witness :
    (typedWithRunB "ping").loading = false ∧ trim (typedWithRunB "ping").prompt ≠ "" ∧
      (runGeneration (typedWithRunB "ping") (.ok (outputResponse "pong-A"))
          (.ok (outputResponse "pong-B")) [.setPrompt "next", .submit]).1.history
        = [{ prompt := "ping",
             outputs := { A := .ofJson (.string "pong-A"), B := .ofJson (.string "pong-B") } }] :=
  ⟨rfl, by decide,
    runGeneration_success_turn (typedWithRunB "ping") (.ok (outputResponse "pong-A"))
      (.ok (outputResponse "pong-B")) [.setPrompt "next", .submit]
      (.ofJson (.string "pong-A")) (.ofJson (.string "pong-B")) rfl (by decide)
      (by simp [generateText, outputResponse, jsonResponse, Response.ok, Json.output, List.lookup])
      (fun _ => by
        simp [generateText, outputResponse, jsonResponse, Response.ok, Json.output, List.lookup])⟩

/-- C2: an accepted submission in which at least one lane request fails (a rejected
call or a non-success status; lane A, or lane B when it is enabled), whatever the
other lane returned, ends with the history of before followed by the one turn of the
submission, with its prompt kept and outputs exactly
`{A: "⚠️ Error generating response.", B: ""}`; the failure handling leaves the length
of the history as the submission made it. -/
theorem runGeneration_failure_turn (s : State) (netA netB : Except JsError Response)
    (during : List UiEvent) (hidle : s.loading = false) (hprompt : trim s.prompt ≠ "")
    (hfail : requestFails netA = true ∨ (s.showRunB = true ∧ requestFails netB = true)) :
    (runGeneration s netA netB during).1.history = s.history ++
        [{ prompt := s.prompt,
           outputs := { A := .ofJson (.string "⚠️ Error generating response."),
                        B := .ofJson (.string "") } }] ∧
      ∃ started, runGenerationBegin s = some started ∧
        (runGeneration s netA netB during).1.history.length = started.history.length := by
  have hlanes : ∃ e, (runGenerationLanes s netA netB).result = .error e := by
    cases hfail with
    | inl hA =>
      obtain ⟨e, he⟩ := generateText_of_requestFails (laneData s.prompt s.model s.paramsA) netA hA
      exact ⟨e, by simp [runGenerationLanes, he, promiseAll]⟩
    | inr hB =>
      obtain ⟨e, he⟩ :=
        generateText_of_requestFails (laneData s.prompt s.model s.paramsB) netB hB.2
      cases hA : (generateText (laneData s.prompt s.model s.paramsA) netA).result with
      | error e' => exact ⟨e', by simp [runGenerationLanes, hA, promiseAll]⟩
      | ok resA => exact ⟨e, by simp [runGenerationLanes, hA, hB.1, he, promiseAll]⟩
  obtain ⟨e, he⟩ := hlanes
  have hhist := runGeneration_history s netA netB during hidle hprompt
  rw [he] at hhist
  refine ⟨hhist, _, runGenerationBegin_of_idle s hidle hprompt, ?_⟩
  rw [hhist]
  simp

theorem runGeneration_failure_turn_witness :
    (typedWithRunB "ping").loading = false ∧ trim (typedWithRunB "ping").prompt ≠ "" ∧
      (requestFails (.ok (outputResponse "pong-A")) = true ∨
        ((typedWithRunB "ping").showRunB = true ∧
          requestFails (.ok (jsonResponse 500 (.object [("output", .string "pong-B")]))) = true)) ∧
      ((runGeneration (typedWithRunB "ping") (.ok (outputResponse "pong-A"))
          (.ok (jsonResponse 500 (.object [("output", .string "pong-B")]))) []).1.history
          = (typedWithRunB "ping").history ++
            [{ prompt := (typedWithRunB "ping").prompt,
               outputs := { A := .ofJson (.string "⚠️ Error generating response."),
                            B := .ofJson (.string "") } }] ∧
        ∃ started, runGenerationBegin (typedWithRunB "ping") = some started ∧
          (runGeneration (typedWithRunB "ping") (.ok (outputResponse "pong-A"))
            (.ok (jsonResponse 500 (.object [("output", .string "pong-B")]))) []).1.history.length
            = started.history.length) :=
  ⟨rfl, by decide, Or.inr ⟨rfl, by decide⟩,
    runGeneration_failure_turn _ _ _ _ rfl (by decide) (Or.inr ⟨rfl, by decide⟩)⟩

/-- C5: an accepted submission issues exactly the request of lane A when lane B is
disabled and exactly the requests of lane A and of lane B, in that order, when it is
enabled; each is a POST to the one-shot endpoint whose body carries the submitted
prompt, the shared model selection and the temperature, top_p and max_tokens of the
ParamSet of its own lane. When lane B is disabled its value is the empty string,
without any request. -/
theorem runGeneration_requests (s : State) (netA netB : Except JsError Response)
    (during : List UiEvent) (hidle : s.loading = false) (hprompt : trim s.prompt ≠ "") :
    (runGeneration s netA netB during).2 =
        (if s.showRunB then
          [{ url := "http://localhost:8000/generate-local", method := "POST",
             headers := [("Content-Type", "application/json")],
             body := { prompt := s.prompt, model := s.model,
                       temperature := s.paramsA.temperature, top_p := s.paramsA.top_p,
                       max_tokens := s.paramsA.max_tokens } },
           { url := "http://localhost:8000/generate-local", method := "POST",
             headers := [("Content-Type", "application/json")],
             body := { prompt := s.prompt, model := s.model,
                       temperature := s.paramsB.temperature, top_p := s.paramsB.top_p,
                       max_tokens := s.paramsB.max_tokens } }]
        else
          [{ url := "http://localhost:8000/generate-local", method := "POST",
             headers := [("Content-Type", "application/json")],
             body := { prompt := s.prompt, model := s.model,
                       temperature := s.paramsA.temperature, top_p := s.paramsA.top_p,
                       max_tokens := s.paramsA.max_tokens } }]) ∧
      (s.showRunB = false →
        (runGenerationLanes s netA netB).result =
          promiseAll (generateText (laneData s.prompt s.model s.paramsA) netA).result
            (.ok (.ofJson (.string "")))) := by
  have hbegin := runGenerationBegin_of_idle s hidle hprompt
  constructor
  · simp only [runGeneration, hbegin]
    cases hshow : s.showRunB <;> simp [runGenerationLanes, hshow, generateText, laneData]
  · intro hshow
    simp [runGenerationLanes, hshow]

theorem runGeneration_requests_witness :
    (typed "hello").loading = false ∧ trim (typed "hello").prompt ≠ "" ∧
      (runGeneration (typed "hello") (.ok (outputResponse "hi there"))
          (.ok (outputResponse "unused")) []).2 =
        [{ url := "http://localhost:8000/generate-local", method := "POST",
           headers := [("Content-Type", "application/json")],
           body := { prompt := "hello", model := "tinyllama", temperature := 1 / 2,
                     top_p := 9 / 10, max_tokens := 200 } }] :=
  ⟨rfl, by decide,
    (runGeneration_requests (typed "hello") (.ok (outputResponse "hi there"))
      (.ok (outputResponse "unused")) [] rfl (by decide)).1⟩

/-- C9: an accepted submission sets the in-flight flag (Submitting), the flag stays
set under every event that reaches the page while the requests are awaited, and when
they have settled the call ends in that awaiting state with the flag cleared and the
turn settled, whether the requests succeeded or failed (Settled or Failed, then
Idle). After that a submission with a non-blank prompt is accepted again: it issues
requests, appends its own turn after the settled one and ends with the flag
cleared. -/
theorem runGeneration_clears_loading (s : State) (netA netB : Except JsError Response)
    (during : List UiEvent) (hidle : s.loading = false) (hprompt : trim s.prompt ≠ "") :
    ∃ started, runGenerationBegin s = some started ∧ started.loading = true ∧
      (during.foldl applyUi started).loading = true ∧
      (runGeneration s netA netB during).1 =
        { during.foldl applyUi started with
          loading := false,
          history := s.history ++
            [{ prompt := s.prompt,
               outputs :=
                 match (runGenerationLanes s netA netB).result with
                 | .ok (resA, resB) => { A := resA, B := resB }
                 | .error _ =>
                   { A := .ofJson (.string "⚠️ Error generating response."),
                     B := .ofJson (.string "") } }] } ∧
      (runGeneration s netA netB during).1.loading = false ∧
      ∀ (next : String) (netA2 netB2 : Except JsError Response) (during2 : List UiEvent),
        trim next ≠ "" →
        (runGenerationBegin
          (applyUi (runGeneration s netA netB during).1 (.setPrompt next))).isSome = true ∧
        (runGeneration (applyUi (runGeneration s netA netB during).1 (.setPrompt next))
          netA2 netB2 during2).2 ≠ [] ∧
        (runGeneration (applyUi (runGeneration s netA netB during).1 (.setPrompt next))
          netA2 netB2 during2).1.loading = false ∧
        (runGeneration (applyUi (runGeneration s netA netB during).1 (.setPrompt next))
          netA2 netB2 during2).1.history.length = s.history.length + 2 := by
  have hbegin := runGenerationBegin_of_idle s hidle hprompt
  have hstate := runGeneration_state s netA netB during hidle hprompt
  have hhist := runGeneration_history s netA netB during hidle hprompt
  have hdone : (runGeneration s netA netB during).1.loading = false := by
    rw [hstate]
  refine ⟨_, hbegin, rfl, (foldl_applyUi_awaiting during _ rfl).1, hstate, hdone, ?_⟩
  intro next netA2 netB2 during2 hnext
  have hidle2 : (applyUi (runGeneration s netA netB during).1 (.setPrompt next)).loading
      = false := by simpa [applyUi] using hdone
  have hprompt2 : trim (applyUi (runGeneration s netA netB during).1 (.setPrompt next)).prompt
      ≠ "" := by simpa [applyUi] using hnext
  have hkeep : (applyUi (runGeneration s netA netB during).1 (.setPrompt next)).history.length
      = s.history.length + 1 := by
    show (runGeneration s netA netB during).1.history.length = s.history.length + 1
    rw [hhist]
    simp
  have hnext2 := runGeneration_accepted _ netA2 netB2 during2 hidle2 hprompt2
  rw [hkeep] at hnext2
  exact hnext2

theorem runGeneration_clears_loading_witness :
    (typed "hello").loading = false ∧ trim (typed "hello").prompt ≠ "" ∧
      ∃ started, runGenerationBegin (typed "hello") = some started ∧ started.loading = true ∧
        ([UiEvent.setPrompt "again", .submit].foldl applyUi started).loading = true ∧
        (runGeneration (typed "hello") (.ok (jsonResponse 500 .null))
            (.error (.host "TypeError" "Failed to fetch")) [.setPrompt "again", .submit]).1 =
          { [UiEvent.setPrompt "again", .submit].foldl applyUi started with
            loading := false,
            history := (typed "hello").history ++
              [{ prompt := (typed "hello").prompt,
                 outputs :=
                   match (runGenerationLanes (typed "hello") (.ok (jsonResponse 500 .null))
                     (.error (.host "TypeError" "Failed to fetch"))).result with
                   | .ok (resA, resB) => { A := resA, B := resB }
                   | .error _ =>
                     { A := .ofJson (.string "⚠️ Error generating response."),
                       B := .ofJson (.string "") } }] } ∧
        (runGeneration (typed "hello") (.ok (jsonResponse 500 .null))
          (.error (.host "TypeError" "Failed to fetch"))
          [.setPrompt "again", .submit]).1.loading = false ∧
        ∀ (next : String) (netA2 netB2 : Except JsError Response) (during2 : List UiEvent),
          trim next ≠ "" →
          (runGenerationBegin
            (applyUi (runGeneration (typed "hello") (.ok (jsonResponse 500 .null))
              (.error (.host "TypeError" "Failed to fetch")) [.setPrompt "again", .submit]).1
              (.setPrompt next))).isSome = true ∧
          (runGeneration
            (applyUi (runGeneration (typed "hello") (.ok (jsonResponse 500 .null))
              (.error (.host "TypeError" "Failed to fetch")) [.setPrompt "again", .submit]).1
              (.setPrompt next))
            netA2 netB2 during2).2 ≠ [] ∧
          (runGeneration
            (applyUi (runGeneration (typed "hello") (.ok (jsonResponse 500 .null))
              (.error (.host "TypeError" "Failed to fetch")) [.setPrompt "again", .submit]).1
              (.setPrompt next))
            netA2 netB2 during2).1.loading = false ∧
          (runGeneration
            (applyUi (runGeneration (typed "hello") (.ok (jsonResponse 500 .null))
              (.error (.host "TypeError" "Failed to fetch")) [.setPrompt "again", .submit]).1
              (.setPrompt next))
            netA2 netB2 during2).1.history.length = (typed "hello").history.length + 2 :=
  ⟨rfl, by decide,
    runGeneration_clears_loading (typed "hello") (.ok (jsonResponse 500 .null))
      (.error (.host "TypeError" "Failed to fetch")) [.setPrompt "again", .submit]
      rfl (by decide)⟩

/-! ## Response bodies of another shape -/

/-- A body that is not JSON makes `res.json()` reject, and `generateText` with it. -/
theorem generateText_invalid_json (data : GenerationRequest) (res : Response) (e : JsError)
    (hok : res.ok = true) (hbody : res.json = .error e) :
    (generateText data (.ok res)).result = .error e := by
  simp [generateText, hok, hbody]

/-- C10, as stated, fails on a response with status 200 whose body is the JSON value
`null`: the body is not an object carrying `output`, yet `generateText` does not
resolve to `undefined`, it rejects with the `TypeError` of reading `null.output`, and
the turn shows the error message. -/
theorem generateText_null_body_rejects :
    (jsonResponse 200 .null).ok = true ∧
      (jsonResponse 200 .null).json = .ok .null ∧
      Json.carriesOutput .null = false ∧
      (generateText (laneData "hello" "tinyllama" DEFAULT_PARAMS_A)
        (.ok (jsonResponse 200 .null))).result = .error .typeError ∧
      (generateText (laneData "hello" "tinyllama" DEFAULT_PARAMS_A)
        (.ok (jsonResponse 200 .null))).result ≠ .ok .undefined ∧
      (runGeneration (typed "hello") (.ok (jsonResponse 200 .null))
          (.ok (jsonResponse 200 .null)) []).1.history
        = [{ prompt := "hello",
             outputs := { A := .ofJson (.string "⚠️ Error generating response."),
                          B := .ofJson (.string "") } }] := by
  refine ⟨by decide, rfl, rfl, rfl, ?_, rfl⟩
  intro h
  cases h

/-- C10, amended: on a response with a success status whose body parses to a JSON
value that is not an object carrying `output`: when that value is not `null` (an
object without the field, an array, a string, a number, a boolean), `generateText`
does not fail, it resolves to `undefined`, and the turn records `undefined` for the
lane that got this response, next to the value of the other lane (the empty string
for a disabled lane B), instead of the error message, unless the request of the other
lane fails, which gives the error turn as any failure does; when that value is
`null`, `generateText` rejects with a `TypeError` and the turn shows the error
message, whatever the other lane returns. -/
theorem generateText_unvalidated_body (s : State) (res : Response) (json : Json)
    (other : Except JsError Response) (during : List UiEvent)
    (hidle : s.loading = false) (hprompt : trim s.prompt ≠ "")
    (hok : res.ok = true) (hbody : res.json = .ok json)
    (hshape : json.carriesOutput = false) :
    (json ≠ .null →
      (∀ data, (generateText data (.ok res)).result = .ok .undefined) ∧
      (runGeneration s (.ok res) other during).1.history = s.history ++
        [{ prompt := s.prompt,
           outputs :=
             match (if s.showRunB then
                 (generateText (laneData s.prompt s.model s.paramsB) other).result
               else .ok (.ofJson (.string "")) : Except JsError JsValue) with
             | .ok resB => { A := .undefined, B := resB }
             | .error _ =>
               { A := .ofJson (.string "⚠️ Error generating response."),
                 B := .ofJson (.string "") } }] ∧
      (s.showRunB = true →
        (runGeneration s other (.ok res) during).1.history = s.history ++
          [{ prompt := s.prompt,
             outputs :=
               match (generateText (laneData s.prompt s.model s.paramsA) other).result with
               | .ok resA => { A := resA, B := .undefined }
               | .error _ =>
                 { A := .ofJson (.string "⚠️ Error generating response."),
                   B := .ofJson (.string "") } }])) ∧
    (json = .null →
      (∀ data, (generateText data (.ok res)).result = .error .typeError) ∧
      (runGeneration s (.ok res) other during).1.history = s.history ++
        [{ prompt := s.prompt,
           outputs := { A := .ofJson (.string "⚠️ Error generating response."),
                        B := .ofJson (.string "") } }] ∧
      (s.showRunB = true →
        (runGeneration s other (.ok res) during).1.history = s.history ++
          [{ prompt := s.prompt,
             outputs := { A := .ofJson (.string "⚠️ Error generating response."),
                          B := .ofJson (.string "") } }])) := by
  have hhistA := runGeneration_history s (.ok res) other during hidle hprompt
  have hhistB := runGeneration_history s other (.ok res) during hidle hprompt
  constructor
  · intro hnull
    have hout : json.output = .ok .undefined := by
      cases json with
      | null => exact absurd rfl hnull
      | object props =>
        have hnone : props.lookup "output" = none := by
          simpa [Json.carriesOutput] using hshape
        simp [Json.output, hnone]
      | _ => rfl
    have hgen : ∀ data, (generateText data (.ok res)).result = .ok .undefined := by
      intro data
      simp [generateText, hok, hbody, hout]
    refine ⟨hgen, ?_, ?_⟩
    · rw [hhistA]
      cases hshow : s.showRunB with
      | false => simp [runGenerationLanes, hshow, hgen, promiseAll, errorMessage]
      | true =>
        cases hB : (generateText (laneData s.prompt s.model s.paramsB) other).result with
        | error e => simp [runGenerationLanes, hshow, hgen, hB, promiseAll, errorMessage]
        | ok resB => simp [runGenerationLanes, hshow, hgen, hB, promiseAll]
    · intro hshow
      rw [hhistB]
      cases hA : (generateText (laneData s.prompt s.model s.paramsA) other).result with
      | error e => simp [runGenerationLanes, hA, promiseAll, errorMessage]
      | ok resA => simp [runGenerationLanes, hshow, hgen, hA, promiseAll]
  · intro hnull
    have hgen : ∀ data, (generateText data (.ok res)).result = .error .typeError := by
      intro data
      simp [generateText, hok, hbody, hnull, Json.output]
    refine ⟨hgen, ?_, ?_⟩
    · rw [hhistA]
      simp [runGenerationLanes, hgen, promiseAll, errorMessage]
    · intro hshow
      rw [hhistB]
      cases hA : (generateText (laneData s.prompt s.model s.paramsA) other).result with
      | error e => simp [runGenerationLanes, hA, promiseAll, errorMessage]
      | ok resA => simp [runGenerationLanes, hshow, hgen, hA, promiseAll, errorMessage]

theorem generateText_unvalidated_body_witness :
    (typedWithRunB "ping").loading = false ∧ trim (typedWithRunB "ping").prompt ≠ "" ∧
      (jsonResponse 200 (.object [("text", .string "hi there")])).ok = true ∧
      (jsonResponse 200 (.object [("text", .string "hi there")])).json
        = .ok (.object [("text", .string "hi there")]) ∧
      Json.carriesOutput (.object [("text", .string "hi there")]) = false ∧
      Json.object [("text", .string "hi there")] ≠ .null ∧
      ((∀ data, (generateText data
          (.ok (jsonResponse 200 (.object [("text", .string "hi there")])))).result
          = .ok .undefined) ∧
        (runGeneration (typedWithRunB "ping")
            (.ok (jsonResponse 200 (.object [("text", .string "hi there")])))
            (.ok (outputResponse "pong-B")) []).1.history
          = [{ prompt := "ping",
               outputs := { A := .undefined, B := .ofJson (.string "pong-B") } }] ∧
        ((typedWithRunB "ping").showRunB = true →
          (runGeneration (typedWithRunB "ping") (.ok (outputResponse "pong-B"))
              (.ok (jsonResponse 200 (.object [("text", .string "hi there")]))) []).1.history
            = [{ prompt := "ping",
                 outputs := { A := .ofJson (.string "pong-B"), B := .undefined } }])) ∧
      ((∀ data, (generateText data
          (.ok (jsonResponse 200 (.object [("text", .string "hi there")])))).result
          = .ok .undefined) ∧
        (runGeneration (typedWithRunB "ping")
            (.ok (jsonResponse 200 (.object [("text", .string "hi there")])))
            (.ok (jsonResponse 500 .null)) []).1.history
          = [{ prompt := "ping",
               outputs := { A := .ofJson (.string "⚠️ Error generating response."),
                            B := .ofJson (.string "") } }] ∧
        ((typedWithRunB "ping").showRunB = true →
          (runGeneration (typedWithRunB "ping") (.ok (jsonResponse 500 .null))
              (.ok (jsonResponse 200 (.object [("text", .string "hi there")]))) []).1.history
            = [{ prompt := "ping",
                 outputs := { A := .ofJson (.string "⚠️ Error generating response."),
                              B := .ofJson (.string "") } }])) ∧
      ((∀ data, (generateText data (.ok (jsonResponse 200 .null))).result
          = .error .typeError) ∧
        (runGeneration (typedWithRunB "ping") (.ok (jsonResponse 200 .null))
            (.ok (jsonResponse 200 .null)) []).1.history
          = [{ prompt := "ping",
               outputs := { A := .ofJson (.string "⚠️ Error generating response."),
                            B := .ofJson (.string "") } }] ∧
        ((typedWithRunB "ping").showRunB = true →
          (runGeneration (typedWithRunB "ping") (.ok (jsonResponse 200 .null))
              (.ok (jsonResponse 200 .null)) []).1.history
            = [{ prompt := "ping",
                 outputs := { A := .ofJson (.string "⚠️ Error generating response."),
                              B := .ofJson (.string "") } }])) :=
  ⟨rfl, by decide, by decide, rfl, by simp [Json.carriesOutput, List.lookup], by simp,
    (generateText_unvalidated_body (typedWithRunB "ping")
      (jsonResponse 200 (.object [("text", .string "hi there")]))
      (.object [("text", .string "hi there")]) (.ok (outputResponse "pong-B")) []
      rfl (by decide) (by decide) rfl (by simp [Json.carriesOutput, List.lookup])).1 (by simp),
    (generateText_unvalidated_body (typedWithRunB "ping")
      (jsonResponse 200 (.object [("text", .string "hi there")]))
      (.object [("text", .string "hi there")]) (.ok (jsonResponse 500 .null)) []
      rfl (by decide) (by decide) rfl (by simp [Json.carriesOutput, List.lookup])).1 (by simp),
    (generateText_unvalidated_body (typedWithRunB "ping") (jsonResponse 200 .null) .null
      (.ok (jsonResponse 200 .null)) [] rfl (by decide) (by decide) rfl rfl).2 rfl⟩

end AiRoadmap
